import Mathlib

/-!
Verification development for the hexes terminal-UI toolkit
(`src/hexes/hexes.py`, `src/hexes/aiotextpad.py`, `src/hexes/behaviors.py`).

The layout resolver, the keystroke registry, the poll cycle, the scroll
operation and the inline text editor are shallowly embedded below.  Python
integers are modelled as `Int`; a Python runtime error (AssertionError,
ZeroDivisionError, a curses error propagating out) is modelled as `none` of
an `Option` result.  The curses window itself is an external collaborator:
its cursor position is tracked (the code moves it explicitly), reads of its
contents are an input function, and content mutations are recorded as an
opaque-to-us trace of driver calls.
-/

namespace Hexes

/-- Layout axis of `Style.Layout` (hexes.py lines 43-45). -/
inductive Layout where
  | vertical
  | horizontal
deriving DecidableEq, Repr

/-- Value of `Style.height` / `Style.width`: a fixed `int`, the string
`"auto"` (`Style.Height.Auto` / `Style.Width.Auto`), or any other value
(e.g. `None`), which the resolver treats as the derived case
(hexes.py lines 47-51, 223, 302-306). -/
inductive DimSpec where
  | fixed (n : Int)
  | auto
  | derived
deriving DecidableEq, Repr

/-- The `Style` record with its class-attribute defaults
(hexes.py lines 53-59). -/
structure Style where
  border_collapse : Bool := true
  layout : Layout := Layout.vertical
  min_height : Int := 0
  height : DimSpec := DimSpec.auto
  min_width : Int := 0
  width : DimSpec := DimSpec.auto
  flow : Bool := false
deriving DecidableEq, Repr

/-- A `Box` tree node (hexes.py lines 84-100).  The `parent` back-reference
is represented by the tree structure itself (contexts are passed down when
resolving); `avail_height`/`avail_width` are the `_available_height` /
`_available_width` override slots.  Python creates the `dirty` attribute on
first assignment; it is a plain `Bool` here. -/
inductive Box where
  | mk (title : Option String) (style : Style) (editable : Bool)
       (text : Option String) (text_offset : Int)
       (avail_height : Option Int) (avail_width : Option Int)
       (dirty : Bool) (children : List Box)
deriving Repr

/-- Style of a box. -/
def Box.style : Box → Style
  | .mk _ s _ _ _ _ _ _ _ => s

/-- Children of a box, in order. -/
def Box.children : Box → List Box
  | .mk _ _ _ _ _ _ _ _ cs => cs

/-- Inner text of a box. -/
def Box.text : Box → Option String
  | .mk _ _ _ tx _ _ _ _ _ => tx

/-- Dirty flag of a box. -/
def Box.dirty : Box → Bool
  | .mk _ _ _ _ _ _ _ d _ => d

/-- Which dimension `Box.__available_dimension` / `Box.__dimension` is
resolving (the `main` string argument, hexes.py lines 211-219). -/
inductive MainDim where
  | height
  | width
deriving DecidableEq, Repr

/-- The layout direction for which the whole interior is available in
dimension `main` (hexes.py lines 212-218). -/
def full_dimension : MainDim → Layout
  | .height => Layout.horizontal
  | .width => Layout.vertical

/-- The layout direction for which the interior is divided among siblings
in dimension `main` (hexes.py lines 212-218). -/
def divided_dimension : MainDim → Layout
  | .height => Layout.vertical
  | .width => Layout.horizontal

/-- The style value `getattr(self.style, main)`. -/
def style_dim (m : MainDim) (s : Style) : DimSpec :=
  match m with
  | .height => s.height
  | .width => s.width

/-- The style minimum `getattr(self.style, "min_" + main)`. -/
def style_min (m : MainDim) (s : Style) : Int :=
  match m with
  | .height => s.min_height
  | .width => s.min_width

/-- The override slot `getattr(self, "_available_" + main)`. -/
def Box.override (m : MainDim) : Box → Option Int
  | .mk _ _ _ _ _ ah aw _ _ =>
    match m with
    | .height => ah
    | .width => aw

/-- Context a box is resolved in: its parent's already-resolved available
space in the relevant dimension (`none` if computing it raised), the
parent's style, and the styles of the parent's children in order
(`siblings_including_self`).  A root box has no context. -/
structure Ctx where
  parent_available : Option Int
  parent_style : Style
  siblings_including_self : List Style
deriving Repr

/-- Sum of the fixed integer sizes among the siblings
(hexes.py lines 238-242). -/
def fixed_siblings_sum (m : MainDim) (sibs : List Style) : Int :=
  (sibs.filterMap fun sb =>
    match style_dim m sb with
    | .fixed n => some n
    | _ => none).sum

/-- Number of siblings whose size is `Auto` (hexes.py lines 243-247). -/
def auto_siblings_count (m : MainDim) (sibs : List Style) : Nat :=
  (sibs.filter fun sb => style_dim m sb == DimSpec.auto).length

/-- Embedding of `Box.__available_dimension` (hexes.py lines 211-251).
`floor(inside_main / len(auto_sibs) + 1)` is the exact rational floor,
written as `Int.fdiv (inside_main + n) n`; a `ZeroDivisionError`
(no `Auto` sibling) and a raising parent are `none`. -/
def available_dimension (m : MainDim) (override : Option Int) (s : Style)
    (ctx : Option Ctx) : Option Int :=
  match override with
  | some v => some v
  | none =>
    match style_dim m s with
    | .fixed n => some n
    | _ =>
      match ctx with
      | none => some 2
      | some c =>
        let adjustment : Int := if c.parent_style.border_collapse then 0 else 2
        let small_adjustment : Int :=
          if c.parent_style.border_collapse then 0 else 1
        match c.parent_available with
        | none => none
        | some pa =>
          let inside_main := pa - adjustment
          if c.parent_style.layout = full_dimension m then
            some inside_main
          else if c.parent_style.layout = divided_dimension m then
            let inside_rem :=
              inside_main - fixed_siblings_sum m c.siblings_including_self
            let n : Nat := auto_siblings_count m c.siblings_including_self
            if n = 0 then none
            else some (Int.fdiv (inside_rem + (n : Int)) (n : Int)
                        - small_adjustment)
          else some 2

/-- Context the children of a box are resolved in: the box's own available
space becomes their `parent_available`, its style their `parent_style`, and
its children's styles their sibling list. -/
def child_ctx (m : MainDim) (ctx : Option Ctx) (b : Box) : Option Ctx :=
  some ⟨available_dimension m (b.override m) b.style ctx, b.style,
        b.children.map Box.style⟩

mutual

/-- Embedding of `Box.__dimension` (hexes.py lines 285-306).  Note that the
source's `required_main = 2` for a childless box (lines 291-292) is a dead
store: line 299 unconditionally reassigns `required_main` to the children
sum plus the border adjustment, so a childless box gets
`required_main = adjustment`.  The children's sizes are summed eagerly,
before the `Auto`/fixed checks, exactly as the source does. -/
def dimension (m : MainDim) (ctx : Option Ctx) : Box → Option Int
  | .mk title s editable tx toff ah aw d cs =>
    let b : Box := .mk title s editable tx toff ah aw d cs
    let adjustment : Int :=
      match ctx with
      | some c => if c.parent_style.border_collapse then 0 else 2
      | none => 2
    match children_sum m (child_ctx m ctx b) cs with
    | none => none
    | some csum =>
      let required_main := csum + adjustment
      if style_dim m s = DimSpec.auto then
        available_dimension m (b.override m) s ctx
      else
        match style_dim m s with
        | .fixed n => some n
        | _ => some (max required_main (style_min m s))

/-- The eager `sum(getattr(c, main) for c in self.children)` of
hexes.py line 300; an exception in any child propagates. -/
def children_sum (m : MainDim) (cctx : Option Ctx) : List Box → Option Int
  | [] => some 0
  | c :: rest =>
    match dimension m cctx c, children_sum m cctx rest with
    | some a, some b => some (a + b)
    | _, _ => none

end

/-- The node of a tree reached by a list of child indices (`[]` is the root
itself).  Paths are how the Python tests pick out `A`, `AA`, `B`, ... . -/
def node_at : Box → List Nat → Option Box
  | b, [] => some b
  | b, i :: rest =>
    match b.children[i]? with
    | some c => node_at c rest
    | none => none

/-- The `available_height`/`available_width` property of the node at a path
(outer `none`: no such node; inner `none`: the Python property raised). -/
def available_at (m : MainDim) (ctx : Option Ctx) (b : Box) :
    List Nat → Option (Option Int)
  | [] => some (available_dimension m (b.override m) b.style ctx)
  | i :: rest =>
    match b.children[i]? with
    | some c => available_at m (child_ctx m ctx b) c rest
    | none => none

/-- The `height`/`width` property of the node at a path. -/
def dimension_at (m : MainDim) (ctx : Option Ctx) (b : Box) :
    List Nat → Option (Option Int)
  | [] => some (dimension m ctx b)
  | i :: rest =>
    match b.children[i]? with
    | some c => dimension_at m (child_ctx m ctx b) c rest
    | none => none

/-- Embedding of the point arithmetic of `Box.upper_left`
(hexes.py lines 352-388): `parent` carries the parent's `upper_left` and
style if any; `elder` carries `older_siblings[-1].lower_right` if the box
has older siblings.  A root uses `(-1, -1)` and the `Style` class default
layout; the border adjustment is 1 unless the parent exists and collapses
borders. -/
def upper_left_core (parent : Option ((Int × Int) × Style))
    (elder : Option (Int × Int)) : Int × Int :=
  let xy : Int × Int :=
    match parent with
    | some (pul, _) => pul
    | none => (-1, -1)
  let layout : Layout :=
    match parent with
    | some (_, ps) => ps.layout
    | none => ({} : Style).layout
  let exy : Int × Int :=
    match elder with
    | some e => e
    | none => xy
  let adjustment : Int :=
    match parent with
    | some (_, ps) => if ps.border_collapse then 0 else 1
    | none => 1
  let older_flag : Int := if elder.isSome then 1 else 0
  match layout with
  | .horizontal => (exy.1 + adjustment - older_flag, xy.2 + adjustment)
  | .vertical => (xy.1 + adjustment, exy.2 + adjustment - older_flag)

/-- `(width, height)` of a box, given the contexts for each dimension
(`lower_right` adds this pair to `upper_left`, hexes.py lines 390-403). -/
def box_size (ctxH ctxW : Option Ctx) (b : Box) : Option (Int × Int) :=
  match dimension .width ctxW b, dimension .height ctxH b with
  | some w, some h => some (w, h)
  | _, _ => none

/-- The `upper_left` of the `i`-th child of a box whose own `upper_left` is
`pul`: the recursion over older siblings of hexes.py lines 368-371, each
older sibling contributing its `lower_right`. -/
def child_upper_left (pul : Int × Int) (ps : Style)
    (cctxH cctxW : Option Ctx) (children : List Box) :
    Nat → Option (Int × Int)
  | 0 =>
    match children[0]? with
    | some _ => some (upper_left_core (some (pul, ps)) none)
    | none => none
  | j + 1 =>
    match children[j + 1]?, children[j]? with
    | some _, some cj =>
      match child_upper_left pul ps cctxH cctxW children j,
            box_size cctxH cctxW cj with
      | some ul, some (w, h) =>
        some (upper_left_core (some (pul, ps)) (some (ul.1 + w, ul.2 + h)))
      | _, _ => none
    | _, _ => none

/-- The `upper_left` of the node at a path, carrying the resolved
`upper_left` of the current box down the tree. -/
def upper_left_at_aux (ctxH ctxW : Option Ctx) (ul : Int × Int) (b : Box) :
    List Nat → Option (Int × Int)
  | [] => some ul
  | i :: rest =>
    match b.children[i]? with
    | some c =>
      match child_upper_left ul b.style (child_ctx .height ctxH b)
              (child_ctx .width ctxW b) b.children i with
      | some cul =>
        upper_left_at_aux (child_ctx .height ctxH b)
          (child_ctx .width ctxW b) cul c rest
      | none => none
    | none => none

/-- The `upper_left` property of the node at a path in a full tree. -/
def upper_left_at (t : Box) (p : List Nat) : Option (Int × Int) :=
  upper_left_at_aux none none (upper_left_core none none) t p

/-- The context of the node at a path, for dimension `m`. -/
def ctx_at (m : MainDim) (ctx : Option Ctx) (b : Box) :
    List Nat → Option (Option Ctx)
  | [] => some ctx
  | i :: rest =>
    match b.children[i]? with
    | some c => ctx_at m (child_ctx m ctx b) c rest
    | none => none

/-- The `lower_right` property of the node at a path:
`upper_left + (width, height)` (hexes.py lines 390-403). -/
def lower_right_at (t : Box) (p : List Nat) : Option (Int × Int) :=
  match upper_left_at t p, ctx_at .height none t p, ctx_at .width none t p,
        node_at t p with
  | some ul, some ctxH, some ctxW, some b =>
    match box_size ctxH ctxW b with
    | some (w, h) => some (ul.1 + w, ul.2 + h)
    | none => none
  | _, _, _, _ => none

/-- The test fixture of `tests/test_hexes.py` (also §8 of the design spec):
a default-styled root with children `A` (children `AA`, `AB`) and `B`, and
`available_height = available_width = 100` set on the root. -/
def fixture_root : Box :=
  .mk (some "Root") {} false none 0 (some 100) (some 100) false
    [ .mk (some "A") {} false none 0 none none false
        [ .mk (some "AA") {} false none 0 none none false [],
          .mk (some "AB") {} false none 0 none none false [] ],
      .mk (some "B") {} false none 0 none none false [] ]

/-! Scrolling (hexes.py lines 421-434). -/

/-- The `self.text.count("\n")` of hexes.py line 430. -/
def count_newlines (s : String) : Nat :=
  s.toList.countP (fun c => c == '\x0a')

/-- Embedding of `Box.scroll` (hexes.py lines 421-434): the new
`_text_offset` after adding `amount`, clamping below at 0 and then above at
`text.count("\n") - 1`.  The box must have non-`None` text (else line 430
raises), so `text` is a plain string here. -/
def scroll (text : String) (text_offset amount : Int) : Int :=
  let num_lines : Int := count_newlines text
  min (num_lines - 1) (max 0 (text_offset + amount))

/-! The keystroke registry (hexes.py lines 593-645). -/

/-- The `_registry`, a `defaultdict(list)` from event key to the ordered
list of handlers; handlers are abstract tokens. -/
def Registry : Type := String → List Nat

/-- A fresh `defaultdict(list)`: every key maps to the empty list. -/
def empty_registry : Registry := fun _ => []

/-- Embedding of `Application._register` (hexes.py lines 643-645), which
`Application.on` always reaches: append `fn` to `self._registry[event_id]`.
No key is inspected or rejected anywhere on this path. -/
def register (r : Registry) (event_id : String) (fn : Nat) : Registry :=
  fun k => if k = event_id then r event_id ++ [fn] else r k

/-- Modelled from the spec (§4.2, §7a): whether an event key is valid — a
single printable character, a named special key (arrows, resize), or the
literal `"ready"`.  The source has no such predicate; this definition exists
only to state the claim that invalid keys are rejected. -/
def spec_valid_key (k : String) : Bool :=
  (k.length == 1 && k.toList.all fun c => 32 ≤ c.toNat && c.toNat < 127)
    || ["KEY_UP", "KEY_DOWN", "KEY_LEFT", "KEY_RIGHT", "KEY_RESIZE"].contains k
    || k == "ready"

/-! The poll cycle (hexes.py lines 673-684). -/

/-- Observable outcome of one `Application._process_key` cycle: whether
`stdscr.getkey()` was called, and which handlers were scheduled. -/
structure PollCycle where
  read_key : Bool
  scheduled : List Nat
deriving DecidableEq, Repr

/-- Embedding of `Application._process_key` (hexes.py lines 673-684).
`key` is what `getkey()` would return (`none`: it raises `curses.error`,
swallowed by the `except`).  When a textbox is active the body is `pass`:
no read, nothing scheduled. -/
def process_key (has_active_textbox : Bool) (key : Option String)
    (registry : Registry) : PollCycle :=
  if has_active_textbox then ⟨false, []⟩
  else
    match key with
    | none => ⟨true, []⟩
    | some k => ⟨true, registry k⟩

/-! Dirty propagation (hexes.py lines 416-419, behaviors.py lines 5-20). -/

/-- Assignment to the `_text` slot alone (the first line of the `text`
setter). -/
def set_text (val : Option String) : Box → Box
  | .mk t s e _ toff ah aw d cs => .mk t s e val toff ah aw d cs

/-- Assignment to the `dirty` slot of one node. -/
def set_dirty (v : Bool) : Box → Box
  | .mk t s e tx toff ah aw _ cs => .mk t s e tx toff ah aw v cs

/-- Apply `f` to the node at a path, rebuilding the tree. -/
def modify_at : Box → List Nat → (Box → Box) → Option Box
  | b, [], f => some (f b)
  | .mk t s e tx toff ah aw d cs, i :: rest, f =>
    match cs[i]? with
    | some c =>
      (modify_at c rest f).map fun c2 =>
        .mk t s e tx toff ah aw d (cs.set i c2)
    | none => none

/-- Embedding of the `text` setter run on the node at `p` (hexes.py lines
416-419): `self._text = val` then `self.root.dirty = True` — the root of
the tree, not any intermediate ancestor. -/
def set_text_at (b : Box) (p : List Nat) (val : Option String) :
    Option Box :=
  (modify_at b p (set_text val)).map (set_dirty true)

/-- Embedding of the state effect of one `render` pass (behaviors.py lines
5-20): if the root is dirty, repaint (a driver effect) and clear the root's
dirty flag; otherwise do nothing. -/
def render_pass (b : Box) : Box :=
  if b.dirty then set_dirty false b else b

/-! The inline text editor (aiotextpad.py) and its driving coroutine
(behaviors.py `_edit`).  Key codes are the curses/ASCII values the source
compares against. -/

/-- ASCII/curses key codes used in `AsyncTextbox.do_command`. -/
def SOH : Int := 1
def STX : Int := 2
def EOT : Int := 4
def ENQ : Int := 5
def ACK : Int := 6
def BEL : Int := 7
def BS : Int := 8
def NL : Int := 10
def VT : Int := 11
def FF : Int := 12
def SO : Int := 14
def SI : Int := 15
def DLE : Int := 16
def KEY_DOWN : Int := 258
def KEY_UP : Int := 259
def KEY_LEFT : Int := 260
def KEY_RIGHT : Int := 261
def KEY_BACKSPACE : Int := 263

/-- The `curses.ascii.isprint` predicate: a printable 7-bit character. -/
def isprint (ch : Int) : Bool := 32 ≤ ch && ch < 127

/-- A curses window call whose effect lives in the external driver (the
window's character grid is not part of the editor's own state). -/
inductive WinOp where
  | delch
  | deleteln
  | clrtoeol
  | insertln
  | refresh
deriving DecidableEq, Repr

/-- State of an `AsyncTextbox` (aiotextpad.py lines 33-46) plus the window
state the editor manipulates: `winy`/`winx` is the window's cursor (read by
`getyx`, written by `move`), `eol` is the window's
`_end_of_line` response (a read of the external window contents), and
`trace` records content-mutating driver calls in order. -/
structure TB where
  characters : String
  cursor : Int
  winy : Int
  winx : Int
  maxy : Int
  maxx : Int
  stripspaces : Bool
  insert_mode : Bool
  lastcmd : Option Int
  is_active : Bool
  eol : Int → Int
  trace : List WinOp

/-- Embedding of `AsyncTextbox.bounded` (aiotextpad.py lines 56-63):
`assert min_ < max_` then clamp; a failing assertion is `none`. -/
def bounded (val min_ max_ : Int) : Option Int :=
  if min_ < max_ then some (min max_ (max min_ val)) else none

/-- The `cursor` property setter (aiotextpad.py lines 52-54):
`_cursor = bounded(val, 0, len(characters))`. -/
def set_cursor (tb : TB) (val : Int) : Option TB :=
  (bounded val 0 (tb.characters.length : Int)).map
    fun c => { tb with cursor := c }

/-- Python's return value from a `do_command` action: `None`, an `int`, or
a `bool`. -/
inductive PyRet where
  | vnone
  | vint (n : Int)
  | vbool (b : Bool)
deriving DecidableEq, Repr

/-- Python truthiness test `not ret` used by `_edit`. -/
def falsy : PyRet → Bool
  | .vnone => true
  | .vint n => n == 0
  | .vbool b => !b

/-- `characters[:i] + c + characters[i:]` for a cursor `i` in
`[0, len]`. -/
def insert_at (s : String) (i : Int) (c : Char) : String :=
  ⟨s.toList.take i.toNat ++ [c] ++ s.toList.drop i.toNat⟩

/-- `characters[:i] + characters[i+1:]` for a cursor `i` in `[0, len]`. -/
def delete_at (s : String) (i : Int) : String :=
  ⟨s.toList.take i.toNat ++ s.toList.drop (i.toNat + 1)⟩

/-- `AsyncTextbox._insert_printable_char` (aiotextpad.py lines 149-155):
splice `chr(ch)` in at the cursor, then `cursor += 1` through the bounded
setter. -/
def insert_printable_char (tb : TB) (ch : Int) : Option TB :=
  let tb2 :=
    { tb with characters := insert_at tb.characters tb.cursor
                              (Char.ofNat ch.toNat) }
  set_cursor tb2 (tb2.cursor + 1)

/-- `AsyncTextbox.do_printable_char` (aiotextpad.py lines 144-147). -/
def do_printable_char (tb : TB) (ch x y : Int) : Option (PyRet × TB) :=
  if y < tb.maxy || x < tb.maxx then
    (insert_printable_char tb ch).map fun tb2 => (.vbool true, tb2)
  else some (.vbool true, tb)

/-- `AsyncTextbox.ctrl_a` (aiotextpad.py lines 76-77): `win.move(y, 0)`,
returning `None`. -/
def ctrl_a (tb : TB) (ch x y : Int) : Option (PyRet × TB) :=
  some (.vnone, { tb with winy := y, winx := 0 })

/-- `AsyncTextbox.ctrl_d` (aiotextpad.py lines 79-80): `win.delch()`, a
window-content call; `characters` is not touched. -/
def ctrl_d (tb : TB) (ch x y : Int) : Option (PyRet × TB) :=
  some (.vnone, { tb with trace := tb.trace ++ [.delch] })

/-- `AsyncTextbox.ctrl_e` (aiotextpad.py lines 82-86). -/
def ctrl_e (tb : TB) (ch x y : Int) : Option (PyRet × TB) :=
  some (.vnone,
    { tb with winy := y,
              winx := if tb.stripspaces then tb.eol y else tb.maxx })

/-- `AsyncTextbox.ctrl_f` (aiotextpad.py lines 88-90): `cursor += 1`
through the bounded setter, returning `True`. -/
def ctrl_f (tb : TB) (ch x y : Int) : Option (PyRet × TB) :=
  (set_cursor tb (tb.cursor + 1)).map fun tb2 => (.vbool true, tb2)

/-- `AsyncTextbox.ctrl_g` (aiotextpad.py lines 92-93): `return 0`. -/
def ctrl_g (tb : TB) (ch x y : Int) : Option (PyRet × TB) :=
  some (.vint 0, tb)

/-- `AsyncTextbox.ctrl_j` (aiotextpad.py lines 95-99). -/
def ctrl_j (tb : TB) (ch x y : Int) : Option (PyRet × TB) :=
  if tb.maxy = 0 then some (.vint 0, tb)
  else if y < tb.maxy then some (.vnone, { tb with winy := y + 1, winx := 0 })
  else some (.vnone, tb)

/-- `AsyncTextbox.ctrl_k` (aiotextpad.py lines 101-107). -/
def ctrl_k (tb : TB) (ch x y : Int) : Option (PyRet × TB) :=
  if x = 0 && tb.eol y = 0 then
    some (.vnone, { tb with trace := tb.trace ++ [.deleteln] })
  else
    some (.vnone, { tb with winy := y, winx := x,
                            trace := tb.trace ++ [.clrtoeol] })

/-- `AsyncTextbox.ctrl_l` (aiotextpad.py lines 109-110). -/
def ctrl_l (tb : TB) (ch x y : Int) : Option (PyRet × TB) :=
  some (.vnone, { tb with trace := tb.trace ++ [.refresh] })

/-- `AsyncTextbox.ctrl_n` (aiotextpad.py lines 112-116). -/
def ctrl_n (tb : TB) (ch x y : Int) : Option (PyRet × TB) :=
  if y < tb.maxy then
    if x > tb.eol (y + 1) then
      some (.vnone, { tb with winy := y + 1, winx := tb.eol (y + 1) })
    else some (.vnone, { tb with winy := y + 1, winx := x })
  else some (.vnone, tb)

/-- `AsyncTextbox.ctrl_o` (aiotextpad.py lines 118-119). -/
def ctrl_o (tb : TB) (ch x y : Int) : Option (PyRet × TB) :=
  some (.vnone, { tb with trace := tb.trace ++ [.insertln] })

/-- `AsyncTextbox.ctrl_p` (aiotextpad.py lines 121-125). -/
def ctrl_p (tb : TB) (ch x y : Int) : Option (PyRet × TB) :=
  if y > 0 then
    if x > tb.eol (y - 1) then
      some (.vnone, { tb with winy := y - 1, winx := tb.eol (y - 1) })
    else some (.vnone, { tb with winy := y - 1, winx := x })
  else some (.vnone, tb)

/-- `AsyncTextbox.leftward_key` (aiotextpad.py lines 127-142): move the
cursor or the window cursor left, and for the backspace variants also
delete the character now under the cursor; returns `True`. -/
def leftward_key (tb : TB) (ch x y : Int) : Option (PyRet × TB) :=
  let step : Option TB :=
    if tb.cursor > 0 then
      (set_cursor tb (tb.cursor - 1)).map
        fun tb2 => { tb2 with winy := y, winx := tb2.cursor }
    else if y = 0 then some tb
    else if tb.stripspaces then
      some { tb with winy := y - 1, winx := tb.eol (y - 1) }
    else some { tb with winy := y - 1, winx := tb.maxx }
  step.map fun tb2 =>
    if ch == BS || ch == KEY_BACKSPACE then
      (.vbool true, { tb2 with characters := delete_at tb2.characters tb2.cursor })
    else (.vbool true, tb2)

/-- One `(predicate, action)` row of `the_big_map`
(aiotextpad.py lines 197-212). -/
def TEntry : Type := (Int → Bool) × (TB → Int → Int → Int → Option (PyRet × TB))

/-- The ordered dispatch table of `AsyncTextbox.do_command`
(aiotextpad.py lines 197-212), in source order. -/
def the_big_map : List TEntry :=
  [ (fun ch => isprint ch, do_printable_char),
    (fun ch => ch == SOH, ctrl_a),
    (fun ch => [STX, KEY_LEFT, BS, KEY_BACKSPACE].contains ch, leftward_key),
    (fun ch => ch == EOT, ctrl_d),
    (fun ch => ch == ENQ, ctrl_e),
    (fun ch => [ACK, KEY_RIGHT].contains ch, ctrl_f),
    (fun ch => ch == BEL, ctrl_g),
    (fun ch => ch == NL, ctrl_j),
    (fun ch => ch == VT, ctrl_k),
    (fun ch => ch == FF, ctrl_l),
    (fun ch => [SO, KEY_DOWN].contains ch, ctrl_n),
    (fun ch => ch == SI, ctrl_o),
    (fun ch => [DLE, KEY_UP].contains ch, ctrl_p) ]

/-- The scan loop of `do_command` (aiotextpad.py lines 214-220): run the
action of each matching row; a non-`None` result returns immediately, a
`None` result is kept in `ret` and the scan continues; an uncaught
exception in an action propagates (`none`). -/
def run_table (ch x y : Int) : List TEntry → PyRet → TB → Option (PyRet × TB)
  | [], ret, st => some (ret, st)
  | e :: rest, ret, st =>
    if e.1 ch then
      match e.2 st ch x y with
      | none => none
      | some (r, st2) =>
        match r with
        | .vnone => run_table ch x y rest .vnone st2
        | _ => some (r, st2)
    else run_table ch x y rest ret st

/-- Embedding of `AsyncTextbox.do_command` (aiotextpad.py lines 175-220):
read `(y, x)` from the window, record `lastcmd`, then scan `the_big_map`
starting from `ret = ch`. -/
def do_command (tb0 : TB) (ch : Int) : Option (PyRet × TB) :=
  let y := tb0.winy
  let x := tb0.winx
  run_table ch x y the_big_map (.vint ch) { tb0 with lastcmd := some ch }

/-- Observable outcome of one `_edit` step (behaviors.py lines 28-52). -/
structure EditOutcome where
  textbox : TB
  box_text : Option String
  callback_arg : Option String
  rearmed : Bool

/-- Embedding of one `_edit` step (behaviors.py lines 28-52): the keystroke
`ch0` (optionally transformed by `validate`) goes to `do_command`; a falsy
result deactivates the editor, blanks the box text and, if a callback was
supplied, schedules it with the final buffer; a truthy result mirrors the
buffer into the box text and re-arms the wait. -/
def edit_step (tb : TB) (validate : Option (Int → Int)) (ch0 : Int)
    (has_callback : Bool) : Option EditOutcome :=
  let ch := match validate with
    | some v => v ch0
    | none => ch0
  match do_command tb ch with
  | none => none
  | some (r, tb2) =>
    if falsy r then
      some ⟨{ tb2 with is_active := false }, some "",
            if has_callback then some tb2.characters else none, false⟩
    else
      some ⟨tb2, some tb2.characters, none, true⟩

/-- A concrete textbox over an empty buffer (the state right after
`AsyncTextbox.__init__` on a 4-row window, before any keystroke). -/
def empty_buffer_tb : TB :=
  { characters := "", cursor := 0, winy := 0, winx := 0, maxy := 3,
    maxx := 10, stripspaces := true, insert_mode := false, lastcmd := none,
    is_active := true, eol := fun _ => 0, trace := [] }

/-- A sibling-styles list with exactly one `Auto` member, used to
instantiate the sole-`Auto` theorem and its counterexample. -/
def c3_sibs : List Style := [{}, { height := DimSpec.fixed 3 }]

/-- A childless box whose height style is the derived case (neither a
fixed integer nor `Auto`, e.g. `height=None`). -/
def c4_box : Box :=
  .mk none { height := DimSpec.derived } false none 0 none none false []

/-- Context of `c4_box` under a border-collapsing parent. -/
def c4_ctx_on : Option Ctx :=
  some ⟨some 10, {}, [{ height := DimSpec.derived }]⟩

/-- Context of `c4_box` under a non-collapsing parent. -/
def c4_ctx_off : Option Ctx :=
  some ⟨some 10, { border_collapse := false }, [{ height := DimSpec.derived }]⟩

/-- A childless box whose height style is derived with `min_height = 5`. -/
def c2_wbox : Box :=
  .mk none { height := DimSpec.derived, min_height := 5 }
    false none 0 none none false []

/-- A two-node tree: a root with one child `A`, no text, nothing dirty. -/
def c8_tree : Box :=
  .mk (some "Root") {} false none 0 none none false
    [.mk (some "A") {} false none 0 none none false []]

/-- `c8_tree` after setting the child's text to `"x"`: the child holds the
text, the root (and only the root) is dirty. -/
def c8_tree_after : Box :=
  .mk (some "Root") {} false none 0 none none true
    [.mk (some "A") {} false (some "x") 0 none none false []]

/-! Helper lemmas on path reads under the tree mutations. -/

/-- Reassigning the root's dirty flag leaves every proper descendant
untouched. -/
theorem node_at_set_dirty (v : Bool) (b : Box) (q : List Nat)
    (hq : q ≠ []) : node_at (set_dirty v b) q = node_at b q := by
  cases q with
  | nil => exact absurd rfl hq
  | cons i r => cases b with
    | mk t s e tx toff ah aw d cs => simp [set_dirty, node_at, Box.children]

/-- Applying a function that preserves the dirty flag and the children of
the node it touches preserves the dirty flag read at every path. -/
theorem modify_at_preserves_dirty (f : Box → Box)
    (hf : ∀ x, (f x).dirty = x.dirty)
    (hfc : ∀ x, (f x).children = x.children) :
    ∀ (p : List Nat) (b t : Box), modify_at b p f = some t →
      ∀ q, (node_at t q).map Box.dirty = (node_at b q).map Box.dirty := by
  intro p
  induction p with
  | nil =>
    intro b t h q
    simp only [modify_at, Option.some.injEq] at h
    subst h
    cases q with
    | nil => simp [node_at, hf]
    | cons j r => simp only [node_at, hfc]
  | cons i rest ih =>
    intro b t h q
    cases b with
    | mk bt s e tx toff ah aw d cs =>
      cases hci : cs[i]? with
      | none => simp [modify_at, hci] at h
      | some c =>
        simp only [modify_at, hci] at h
        cases hmc : modify_at c rest f with
        | none => simp [hmc] at h
        | some c2 =>
          rw [hmc] at h
          simp only [Option.map_some', Option.some.injEq] at h
          subst h
          cases q with
          | nil => simp [node_at, Box.dirty]
          | cons j r =>
            simp only [node_at, Box.children]
            by_cases hij : i = j
            · subst hij
              have hlt : i < cs.length := by
                exact (List.getElem?_eq_some_iff.mp hci).1
              rw [List.getElem?_set_self hlt, hci]
              exact ih c c2 hmc r
            · rw [List.getElem?_set_ne hij]

end Hexes

namespace Hexes

/-- C1: on the 100×100 fixture tree of tests/test_hexes.py (default
styles, so `border_collapse` is on, layout Vertical), the resolver
actually yields `available_height(A) = available_height(B) = 51`,
`available_height(AA) = 26`, `upper_left(root) = (0,0)`,
`upper_left(A) = (0,0)`, `upper_left(B) = (0,50)`, and
`lower_right(root) = (100,100)` — not the 49/49/23, (1,1), (1,50) the
claim (and the repository's own test suite) states. -/
theorem c1_layout_scenario_actual :
    available_at .height none fixture_root [0] = some (some 51) ∧
    available_at .height none fixture_root [1] = some (some 51) ∧
    available_at .height none fixture_root [0, 0] = some (some 26) ∧
    upper_left_at fixture_root [] = some (0, 0) ∧
    upper_left_at fixture_root [0] = some (0, 0) ∧
    upper_left_at fixture_root [1] = some (0, 50) ∧
    lower_right_at fixture_root [] = some (100, 100) ∧
    available_at .height none fixture_root [0] ≠ some (some 49) ∧
    upper_left_at fixture_root [0] ≠ some (1, 1) := by
  refine ⟨rfl, rfl, rfl, rfl, rfl, rfl, rfl, ?_, ?_⟩ <;> decide

/-- C2 counterexample: a box whose style fixes `height = 1` with
`min_height = 5` resolves to height 1, below its minimum — the minimum is
not applied to fixed dimensions. -/
theorem c2_counterexample :
    dimension .height none
      (.mk none { height := DimSpec.fixed 1, min_height := 5 }
        false none 0 none none false []) = some 1 ∧
    ¬ (5 : Int) ≤ 1 :=
  ⟨rfl, by decide⟩

/-- C2 (amended): when the style's dimension is the derived case (neither
a fixed integer nor `Auto`), the resolved dimension is at least the
style's minimum; fixed and `Auto` dimensions bypass the minimum. -/
theorem c2_derived_dimension_ge_min (m : MainDim) (ctx : Option Ctx)
    (b : Box) (v : Int)
    (hder : style_dim m b.style = DimSpec.derived)
    (hv : dimension m ctx b = some v) :
    style_min m b.style ≤ v := by
  cases b with
  | mk title s editable tx toff ah aw d cs =>
    simp only [Box.style] at hder ⊢
    rw [dimension.eq_def] at hv
    simp only [] at hv
    cases hcs : children_sum m
        (child_ctx m ctx (Box.mk title s editable tx toff ah aw d cs)) cs with
    | none => rw [hcs] at hv; exact absurd hv (by simp)
    | some csum =>
      rw [hcs] at hv
      rw [hder] at hv
      simp only [reduceCtorEq, if_false] at hv
      simp only [Option.some.injEq] at hv
      subst hv
      exact le_max_right _ _

/-- C2 witness: a childless derived-height box with `min_height = 5`
resolves to height 5 ≥ 5. -/
theorem c2_witness :
    style_dim .height c2_wbox.style = DimSpec.derived ∧
    dimension .height none c2_wbox = some 5 ∧
    style_min .height c2_wbox.style ≤ 5 :=
  ⟨rfl, rfl, c2_derived_dimension_ge_min .height none c2_wbox 5 rfl rfl⟩

/-- C3 counterexample: with `border_collapse` on, a sole-`Auto` box among
fixed siblings (parent space 10, one fixed sibling of size 3) receives 8,
not the full remainder 7 — the claim fails for the collapsed setting. -/
theorem c3_counterexample :
    available_dimension .height none {} (some ⟨some 10, {}, c3_sibs⟩)
      = some 8 ∧
    available_dimension .height none {} (some ⟨some 10, {}, c3_sibs⟩)
      ≠ some 7 :=
  ⟨rfl, by decide⟩

/-- C3 (amended): a box that is the only `Auto` sibling on the parent's
layout axis receives the interior remainder plus one, minus the small
adjustment — i.e. the full remainder exactly when borders are not
collapsed, and the remainder plus 1 when they are collapsed. -/
theorem c3_sole_auto_share (m : MainDim) (s ps : Style)
    (sibs : List Style) (pa : Int)
    (hauto : style_dim m s = DimSpec.auto)
    (hlay : ps.layout = divided_dimension m)
    (hone : auto_siblings_count m sibs = 1) :
    available_dimension m none s (some ⟨some pa, ps, sibs⟩) =
      some (pa - (if ps.border_collapse then 0 else 2)
            - fixed_siblings_sum m sibs + 1
            - (if ps.border_collapse then 0 else 1)) := by
  unfold available_dimension
  rw [hauto]
  cases m <;> by_cases hbc : ps.border_collapse <;>
    simp [hlay, hone, hbc, full_dimension, divided_dimension]

/-- C3 witness: parent space 10, collapse on, one fixed sibling of 3: the
sole-`Auto` box receives `10 - 0 - 3 + 1 - 0`. -/
theorem c3_witness :
    style_dim .height ({} : Style) = DimSpec.auto ∧
    ({} : Style).layout = divided_dimension .height ∧
    auto_siblings_count .height c3_sibs = 1 ∧
    available_dimension .height none {} (some ⟨some 10, {}, c3_sibs⟩) =
      some (10 - (if ({} : Style).border_collapse then 0 else 2)
            - fixed_siblings_sum .height c3_sibs + 1
            - (if ({} : Style).border_collapse then 0 else 1)) :=
  ⟨rfl, rfl, rfl, c3_sole_auto_share .height {} {} c3_sibs 10 rfl rfl rfl⟩

/-- C4: a childless box in the derived case resolves to
`max(adjustment, min)` where the adjustment is 0 under a border-collapsing
parent and 2 otherwise — the `required_main = 2` of hexes.py lines 291-292
is dead (overwritten on line 299), so the claimed `max(2, min)` and the
claimed independence from the parent's `border_collapse` both fail: under a
collapsing parent the height is 0, not 2. -/
theorem c4_childless_required_eval :
    dimension .height c4_ctx_on c4_box = some 0 ∧
    dimension .height c4_ctx_off c4_box = some 2 ∧
    dimension .height c4_ctx_on c4_box ≠ some 2 := by
  refine ⟨rfl, rfl, ?_⟩; decide

/-- C5 counterexample: `"zz"` is not a valid event key (two characters,
not a named special key, not `"ready"`), yet registering a handler for it
succeeds and changes the registry — invalid keys are silently accepted. -/
theorem c5_counterexample :
    spec_valid_key "zz" = false ∧
    register empty_registry "zz" 7 "zz" = [7] ∧
    empty_registry "zz" = [] :=
  ⟨rfl, rfl, rfl⟩

/-- C5 (amended): registration never fails and never validates: for any
event key whatsoever the handler is appended to that key's list. -/
theorem c5_register_appends (r : Registry) (k : String) (fn : Nat) :
    register r k fn k = r k ++ [fn] := by
  simp [register]

/-- C6: on an empty buffer (a legal state: `0 ≤ cursor ≤ len(buffer)` with
both 0), processing the move-right command (Ctrl-F / `ACK`) raises: the
cursor setter calls `bounded(1, 0, 0)` whose `assert min_ < max_` fails.
The claim that the command always succeeds on such states is violated. -/
theorem c6_move_right_empty_buffer_asserts :
    empty_buffer_tb.characters.length = 0 ∧
    empty_buffer_tb.cursor = 0 ∧
    do_command empty_buffer_tb ACK = none ∧
    bounded (0 + 1) 0 0 = none :=
  ⟨rfl, rfl, rfl, rfl⟩

/-- C7 counterexample: scrolling a box whose text has no newline character
(here `"hello"`, offset 0, amount 1) sets `text_offset` to −1, violating
`text_offset ≥ 0` — precisely the case the claim singles out. -/
theorem c7_counterexample :
    scroll "hello" 0 1 = -1 ∧ ¬ (0 : Int) ≤ -1 :=
  ⟨rfl, by decide⟩

/-- C7 (amended): after `scroll(amount)` the offset is nonnegative
provided the text contains at least one newline; with no newline the upper
clamp `count("\n") - 1 = -1` drives it to −1. -/
theorem c7_scroll_nonneg_with_newline (text : String) (off amount : Int)
    (h : 1 ≤ count_newlines text) :
    0 ≤ scroll text off amount := by
  unfold scroll
  have h1 : (1 : Int) ≤ (count_newlines text : Int) := by exact_mod_cast h
  refine le_min (by omega) (le_max_left 0 _)

/-- C7 witness: text `"a\nb"` (one newline), offset 0, amount 5 keeps the
offset nonnegative. -/
theorem c7_witness :
    1 ≤ count_newlines "a\x0ab" ∧ 0 ≤ scroll "a\x0ab" 0 5 :=
  ⟨by decide, c7_scroll_nonneg_with_newline "a\x0ab" 0 5 (by decide)⟩

/-- C8: setting the text of the node at any path `p` of any tree marks the
root dirty; the next render pass clears it; and no node other than the
root has its dirty flag changed (the propagation target is the root, never
a partial ancestor chain). -/
theorem c8_set_text_marks_root (b : Box) (p : List Nat)
    (val : Option String) (t : Box) (h : set_text_at b p val = some t) :
    t.dirty = true ∧ (render_pass t).dirty = false ∧
    ∀ q, q ≠ [] → (node_at t q).map Box.dirty = (node_at b q).map Box.dirty := by
  unfold set_text_at at h
  cases hm : modify_at b p (set_text val) with
  | none => rw [hm] at h; exact absurd h (by simp)
  | some t0 =>
    rw [hm] at h
    simp only [Option.map_some', Option.some.injEq] at h
    subst h
    have hdirty : (set_dirty true t0).dirty = true := by
      cases t0; rfl
    refine ⟨hdirty, ?_, ?_⟩
    · unfold render_pass
      rw [hdirty]
      simp only [if_true]
      cases t0; rfl
    · intro q hq
      rw [node_at_set_dirty true t0 q hq]
      exact modify_at_preserves_dirty (set_text val)
        (fun x => by cases x; rfl) (fun x => by cases x; rfl)
        p b t0 hm q

/-- C8 witness: in the two-box tree, setting the child's text marks the
root dirty, a render clears it, and the child's own flag is untouched. -/
theorem c8_witness :
    c8_tree_after.dirty = true ∧
    (render_pass c8_tree_after).dirty = false ∧
    ∀ q, q ≠ [] →
      (node_at c8_tree_after q).map Box.dirty =
        (node_at c8_tree q).map Box.dirty :=
  c8_set_text_marks_root c8_tree [0] (some "x") c8_tree_after rfl

/-- C9: whenever a textbox is active, one poll cycle neither reads a key
from the screen nor schedules any registry handler, whatever key would
have been available and whatever the registry holds. -/
theorem c9_active_textbox_skips_dispatch (key : Option String)
    (registry : Registry) :
    process_key true key registry = ⟨false, []⟩ := rfl

/-- C10: for any editor state, processing Ctrl-A (`SOH`) returns Python
`None` (the `ctrl_a` handler only moves the window cursor and no later
table row matches), so the `_edit` step deactivates the editor, blanks the
box text, schedules the completion callback with the buffer exactly when
one was supplied, and does not re-arm. -/
theorem c10_ctrl_a_ends_edit_session (tb : TB) (has_callback : Bool) :
    edit_step tb none SOH has_callback =
      some ⟨{ tb with lastcmd := some SOH, winx := 0, is_active := false },
            some "",
            if has_callback then some tb.characters else none, false⟩ := rfl

end Hexes
